import Mathlib

set_option maxRecDepth 40000
set_option maxHeartbeats 2000000

/-!
Verification development for the healthcare multi-agent RAG system.

The repository has three algorithmic parts that the statements below are
about:

* the document relevance ranking core (Document Store, Relevance Scorer,
  Ranking Engine, Retrieval Service) — the `lib/retrieval` module consumed by
  `app/api/multi-agent/route.ts` is not part of the sources, so this core is
  modelled from the specification document;
* the Python FastAPI backend (`validate_healthcare_query`,
  `extract_hospital_locations_from_rag`, `parse_hospital_from_rag_content`,
  `extract_coordinates_with_openai`, `get_hospitals_from_rag`), translated
  from the source;
* the Next.js hospital-locations route (`extractHospitalDataFromRAG`),
  translated from the source.

Strings are embedded as `List Char`; Python/JS numbers as `ℚ`.
-/

namespace HealthcareRag

/-- Strings are modelled as lists of characters. -/
abbrev Str := List Char

/-- ASCII lower-casing of one character, as performed by `str.lower()` /
`toLowerCase()` on the ASCII text this system handles. -/
def lowerChar (c : Char) : Char :=
  if 'A' ≤ c ∧ c ≤ 'Z' then Char.ofNat (c.toNat + 32) else c

/-- Lower-casing of a whole string. -/
def lowerStr (s : Str) : Str := s.map lowerChar

/-- Whitespace characters recognised by Python `str.split()` (ASCII subset). -/
def isWs (c : Char) : Bool := c = ' ' || c = '\t' || c = '\n' || c = '\r'

/-- Word characters for tokenisation: letters and digits. -/
def isWordChar (c : Char) : Bool := c.isAlpha || c.isDigit

/-- `needle` occurs as a contiguous substring of `hay`
(Python `needle in hay`, JS `hay.includes(needle)`). -/
def containsSub : Str → Str → Bool
  | needle, [] => needle.isEmpty
  | needle, c :: cs => needle.isPrefixOf (c :: cs) || containsSub needle cs

/-- Flushes the (reversed) word accumulated so far, if any. -/
def flushWord (cur : Str) : List Str :=
  if cur = [] then [] else [cur.reverse]

/-- Splits a string into maximal runs of word characters; `cur` is the
reversed run read so far. -/
def splitWordsAux (cur : Str) : Str → List Str
  | [] => flushWord cur
  | c :: cs =>
    if isWordChar c then splitWordsAux (c :: cur) cs
    else flushWord cur ++ splitWordsAux [] cs

/-- Maximal runs of word characters of a string, in order. -/
def splitWords (l : Str) : List Str := splitWordsAux [] l

/-- Number of whitespace-separated words (Python `len(s.split())`); `b` says
whether we are currently inside a word. -/
def wordCountAux (b : Bool) : Str → Nat
  | [] => 0
  | c :: cs =>
    if isWs c then wordCountAux false cs
    else (if b then 0 else 1) + wordCountAux true cs

/-- Number of whitespace-separated words of a string. -/
def wordCount (l : Str) : Nat := wordCountAux false l

/-! ## The document relevance ranking core

Modelled from the spec: the `RetrievalService` module (`lib/retrieval`)
consumed by `app/api/multi-agent/route.ts` is not among the sources; the
definitions in this section follow sections 3, 4.1–4.4 and 9 of the
specification (Document Store, Relevance Scorer, Ranking Engine, Retrieval
Service) together with the corpus list and the calibrated category scores
recorded in the repository README (emergency 0.95, facility 0.88, allergy
0.92, general 0.78). -/

/-- Modelled from the spec: the intent categories of section 9
(emergency, facility, allergy, general, none). -/
inductive DocCategory where
  | emergency
  | facility
  | allergy
  | general
  | other
deriving DecidableEq, Repr

/-- Modelled from the spec: a Document Store entry (section 3). -/
structure Document where
  id : Nat
  title : Str
  body : Str
  source : Str
  category : DocCategory
deriving DecidableEq, Repr

/-- Modelled from the spec: a scored retrieval entry (section 3). -/
structure ScoredDocument where
  doc : Document
  relevancy : ℚ
  similarity : ℚ
deriving DecidableEq, Repr

/-- Modelled from the spec: the structured result of `retrieveContext`
(section 3). -/
structure RetrievalResult where
  documentsUsed : Nat
  enhanced : Bool
  documents : List ScoredDocument
deriving DecidableEq, Repr

/-- Modelled from the spec: the curated high-priority keyword list of each
intent category (section 4.2 step 3; the spec names "emergency" for the
emergency-guidelines document, the others follow the corpus topics). -/
def intentKeywords : DocCategory → List Str
  | .emergency => ["emergency".data]
  | .facility => ["hospital".data, "clinic".data, "facility".data]
  | .allergy => ["allergy".data, "allergies".data]
  | .general => ["health".data, "medical".data, "wellness".data]
  | .other => []

/-- Modelled from the spec: the calibrated category scores of section 4.2
step 3 (0.95 emergency, 0.88 facility, 0.92 allergy, 0.78 general). -/
def calibratedScore : DocCategory → ℚ
  | .emergency => 95 / 100
  | .facility => 88 / 100
  | .allergy => 92 / 100
  | .general => 78 / 100
  | .other => 0

/-- The query matches an intent category: it contains one of the category's
keywords as a substring (the spec's permissive substring matching). -/
def matchesIntent (cat : DocCategory) (q : Str) : Bool :=
  (intentKeywords cat).any fun kw => containsSub kw (lowerStr q)

/-- The token set of a string: lower-case, split on non-word characters,
duplicates removed (spec section 4.2 step 1). -/
def tokenSet (s : Str) : List Str := (splitWords (lowerStr s)).dedup

/-- Clamp to the unit interval (spec section 4.2 steps 4 and 5). -/
def clamp01 (x : ℚ) : ℚ := min 1 (max 0 x)

/-- Modelled from the spec: keyword overlap of section 4.2 step 2 — the
fraction of query tokens occurring as substrings of the document body
(`0` for a tokenless query, since `ℚ` division by zero is zero). -/
def overlapRatio (q : Str) (d : Document) : ℚ :=
  (((tokenSet q).countP fun t => containsSub t (lowerStr d.body)) : ℚ) /
    (((tokenSet q).length : ℚ))

/-- Modelled from the spec: the relevancy score of section 4.2 — a document
with an empty (tokenless) body scores 0 (edge case of section 4.2); if the
query matches the document's intent category the calibrated constant is
returned, otherwise the computed keyword-overlap ratio; both clamped. -/
def relevancy (q : Str) (d : Document) : ℚ :=
  if tokenSet d.body = [] then 0
  else if matchesIntent d.category q then clamp01 (calibratedScore d.category)
  else clamp01 (overlapRatio q d)

/-- Modelled from the spec: the similarity score of section 4.2 step 5 —
document-side coverage: the fraction of document tokens occurring in the
query token set, 0 for an empty body. -/
def similarity (q : Str) (d : Document) : ℚ :=
  if tokenSet d.body = [] then 0
  else clamp01 ((((tokenSet d.body).countP fun t => decide (t ∈ tokenSet q)) : ℚ) /
    (((tokenSet d.body).length : ℚ)))

/-- Modelled from the spec: `score(query, document)` (section 4.2 contract). -/
def score (q : Str) (d : Document) : ℚ × ℚ := (relevancy q d, similarity q d)

/-- Attaches both scores to a document. -/
def mkScored (q : Str) (d : Document) : ScoredDocument :=
  { doc := d, relevancy := relevancy q d, similarity := similarity q d }

/-- Inserts into a descending-by-relevancy list, before the first strictly
smaller entry, so that earlier input entries stay first on ties. -/
def insertDesc (x : ScoredDocument) : List ScoredDocument → List ScoredDocument
  | [] => [x]
  | y :: ys => if y.relevancy ≤ x.relevancy then x :: y :: ys else y :: insertDesc x ys

/-- Stable descending-by-relevancy insertion sort (spec section 4.3). -/
def sortDesc : List ScoredDocument → List ScoredDocument
  | [] => []
  | x :: xs => insertDesc x (sortDesc xs)

/-- Modelled from the spec: `rank(query, documents, k)` of section 4.3 —
score every document, stable-sort descending by relevancy, truncate to `k`
(zero-scored entries are kept, the result is not filtered). -/
def rank (q : Str) (docs : List Document) (k : Nat) : List ScoredDocument :=
  (sortDesc (docs.map (mkScored q))).take k

/-- Modelled from the spec: the five-document healthcare corpus (spec
sections 2 and 3; titles from the repository README's knowledge-base list,
bodies are representative healthcare text for each title). -/
def emergencyGuidelinesDoc : Document :=
  { id := 1
    title := "Emergency Response Guidelines".data
    body := ("For severe chest pain, difficulty breathing, or heavy bleeding call 911 " ++
             "immediately. Go to the nearest emergency room for evaluation. Trauma " ++
             "centers provide round the clock critical response teams.").data
    source := "Emergency Response Guidelines".data
    category := .emergency }

/-- Modelled from the spec: the remaining four corpus documents after the
emergency-guidelines document, in corpus order. -/
def ragCorpusRest : List Document :=
  [ { id := 2
      title := "Hospital Evaluation Criteria".data
      body := ("Evaluate a hospital by staff responsiveness, equipment quality, bed " ++
               "availability and patient satisfaction ratings. Accredited facilities " ++
               "publish outcome statistics and average waiting times.").data
      source := "Hospital Evaluation Criteria".data
      category := .facility }
  , { id := 3
      title := "Allergy Treatment Protocols".data
      body := ("Seasonal allergies respond to antihistamines and nasal sprays. Track " ++
               "pollen forecasts and limit outdoor exposure on windy days. Severe " ++
               "reactions with swelling require epinephrine and urgent evaluation.").data
      source := "Allergy Treatment Protocols".data
      category := .allergy }
  , { id := 4
      title := "General Healthcare Guidelines".data
      body := ("Routine checkups, balanced nutrition, regular exercise and adequate " ++
               "sleep support long term wellness. Schedule preventive screenings " ++
               "annually and keep vaccination records current.").data
      source := "General Healthcare Guidelines".data
      category := .general }
  , { id := 5
      title := "Sprained Ankle Treatment".data
      body := ("Sprained ankle protocol: rest ice compression elevation. Apply a cold " ++
               "pack for twenty minutes, wrap the joint gently, keep weight off, and " ++
               "elevate above heart level. Elevate during recovery and resume slowly.").data
      source := "Sprained Ankle Treatment".data
      category := .other } ]

/-- Modelled from the spec: the full fixed corpus, in stable insertion order
(spec section 4.1), the emergency-guidelines document first. -/
def ragCorpus : List Document := emergencyGuidelinesDoc :: ragCorpusRest

/-- Modelled from the spec: `retrieveContext(query)` of section 4.4 — ranks
the corpus, keeps the top 3 (the source's fixed top-3 behaviour) and
packages them; `enhanced` is set by the caller, so it starts out false. -/
def retrieveContext (corpus : List Document) (q : Str) : RetrievalResult :=
  { documentsUsed := (rank q corpus 3).length
    enhanced := false
    documents := rank q corpus 3 }

/-- Modelled from the spec: the Retrieval Service façade over a Document
Store that may be unreachable (spec sections 4.4 and 7): a store read error
degrades to the empty result instead of raising. -/
def retrieveContextSafe (store : Except Str (List Document)) (q : Str) : RetrievalResult :=
  match store with
  | .error _ => { documentsUsed := 0, enhanced := false, documents := [] }
  | .ok docs => retrieveContext docs q

/-! ## The Python backend (translated from the source: `main.py`)

`validate_healthcare_query`, `parse_hospital_from_rag_content`,
`extract_coordinates_with_openai`, `extract_hospital_locations_from_rag`
and the `/api/hospitals/rag-locations` endpoint. The OpenAI call inside
`extract_coordinates_with_openai` is an external collaborator and is
injected as an abstract `Resolver`; everything else follows the source. -/

deriving instance DecidableEq for Except

/-- The two `ValueError`s `validate_healthcare_query` can raise. -/
inductive GuardrailError where
  | offTopic
  | missingHealthcareContext
deriving DecidableEq, Repr

/-- The `healthcare_keywords` list of `validate_healthcare_query`. -/
def healthcare_keywords : List Str :=
  [ "hospital", "doctor", "medical", "health", "injury", "pain", "sick", "treatment",
    "emergency", "clinic", "nurse", "medicine", "symptom", "fever", "hurt", "wound",
    "care", "therapy", "diagnosis", "patient", "healthcare", "wellness", "disease",
    "infection", "surgery", "prescription", "urgent care", "pharmacy", "specialist"
  ].map String.data

/-- The `non_healthcare_indicators` list of `validate_healthcare_query`. -/
def non_healthcare_indicators : List Str :=
  [ "weather forecast", "stock price", "news", "sports", "entertainment",
    "cooking recipe", "travel", "shopping", "politics", "business",
    "technology review", "movie", "music", "game", "fashion"
  ].map String.data

/-- `validate_healthcare_query(user_input)`: raises if the lower-cased input
contains a non-healthcare indicator, or contains no healthcare keyword while
having more than three whitespace-separated words; otherwise returns the
input unchanged. -/
def validate_healthcare_query (user_input : Str) : Except GuardrailError Str :=
  if non_healthcare_indicators.any (fun ind => containsSub ind (lowerStr user_input)) then
    .error .offTopic
  else if !(healthcare_keywords.any fun kw => containsSub kw (lowerStr user_input))
      && decide (3 < wordCount user_input) then
    .error .missingHealthcareContext
  else
    .ok user_input

/-- A JSON value, as returned by `json.loads` on the collaborator's text. -/
inductive Json where
  | null
  | bool (b : Bool)
  | num (q : ℚ)
  | str (s : Str)
  | arr (elems : List Json)
  | obj (fields : List (Str × Json))

/-- Python equality of a JSON value with the string `k` (used by `k in list`). -/
def jsonIsStrEq (k : Str) : Json → Bool
  | .str s => decide (s = k)
  | _ => false

/-- Python `k in j`: key membership for a dict, element equality for a list,
substring for a string, and a `TypeError` for every other value. -/
def pyContains (k : Str) : Json → Except Unit Bool
  | .obj fields => .ok (fields.any fun f => decide (f.1 = k))
  | .arr elems => .ok (elems.any (jsonIsStrEq k))
  | .str s => .ok (containsSub k s)
  | _ => .error ()

/-- Outcome of the OpenAI coordinate call followed by `json.loads`: the API
call can fail or time out, the returned text can fail to parse, or a JSON
value is produced. -/
inductive ResolverOutcome where
  | apiError
  | timeout
  | parseError
  | parsed (j : Json)

/-- The injected coordinate-resolution collaborator:
(hospital name, address, location) to an outcome. -/
def Resolver := Str → Str → Str → ResolverOutcome

/-- `extract_coordinates_with_openai`: every exception (API failure, timeout,
unparseable response, `TypeError` from the `in` test) is caught and yields
`none`; a parsed value is returned only when it contains both keys. -/
def extract_coordinates_with_openai (resolver : Resolver)
    (hospital_name address location : Str) : Option Json :=
  match resolver hospital_name address location with
  | .parsed j =>
    match pyContains "lat".data j with
    | .error _ => none
    | .ok false => none
    | .ok true =>
      match pyContains "lng".data j with
      | .error _ => none
      | .ok b => if b then some j else none
  | _ => none

/-- The alternatives of the name regex
`(.*?(?:Hospital|Medical Center|Clinic|Care Center))`, in priority order. -/
def suffixAlternatives : List Str :=
  ["Hospital", "Medical Center", "Clinic", "Care Center"].map String.data

/-- Case-insensitive prefix test (the regex runs with `re.IGNORECASE`). -/
def matchCI : Str → Str → Bool
  | [], _ => true
  | _ :: _, [] => false
  | p :: ps, c :: cs => lowerChar p = lowerChar c && matchCI ps cs

/-- The position of the first alternative match: the smallest position at
which some alternative matches, alternatives tried in priority order there;
returns (position, matched alternative). This is where `re.search`'s match
ends up: since the lazy `.*?` cannot cross positions and the alternatives
are fixed words, the leftmost-starting match is the one reaching the first
alternative occurrence. -/
def findSuffixMatch : Str → Option (Nat × Str)
  | [] =>
    match suffixAlternatives.find? (fun a => matchCI a []) with
    | some a => some (0, a)
    | none => none
  | c :: cs =>
    match suffixAlternatives.find? (fun a => matchCI a (c :: cs)) with
    | some a => some (0, a)
    | none => (findSuffixMatch cs).map fun p => (p.1 + 1, p.2)

/-- The fallback name when the regex does not match. -/
def unknownHospitalName : Str := "Unknown Hospital".data

/-- Python `str.strip()`: removes leading and trailing whitespace. -/
def stripStr (l : Str) : Str :=
  ((l.dropWhile isWs).reverse.dropWhile isWs).reverse

/-- The start of the line containing position `i`: the position right after
the last newline strictly before `i`, or 0 when there is none. Python's `.`
does not match a newline, so the lazy `.*?` of the name regex can only
stretch back to the line start. -/
def lineStart (content : Str) (i : Nat) : Nat :=
  i - ((content.take i).reverse.takeWhile (fun c => !(c == '\n'))).length

/-- The hospital name parsed from a narrative content string: the substring
from the start of the line containing the first suffix match up to the end
of that match (the span `re.search` captures, `.*?` being unable to cross a
newline), stripped; the placeholder when no suffix occurs. -/
def parseHospitalName (content : Str) : Str :=
  match findSuffixMatch content with
  | some p => stripStr ((content.take (p.1 + p.2.length)).drop (lineStart content p.1))
  | none => unknownHospitalName

/-- The record built by `parse_hospital_from_rag_content`. -/
structure HospitalInfo where
  name : Str
  address : Str
  phone : Str
  services : List Str
  rating : ℚ
  emergency : Bool
  urgent_care : Bool
  coordinates : Option Json
  relevance_score : ℚ

/-- The synthesized address `f"123 Healthcare Blvd, {location}"`. -/
def hospitalAddress (location : Str) : Str := "123 Healthcare Blvd, ".data ++ location

/-- `parse_hospital_from_rag_content(content, metadata, location)`: total —
the body's `try` never raises in this model, so the `except` branch
returning `None` is unreachable and every call yields a record. -/
def parse_hospital_from_rag_content (resolver : Resolver) (content : Str)
    (metaScore : Option ℚ) (location : Str) : Option HospitalInfo :=
  some
    { name := parseHospitalName content
      address := hospitalAddress location
      phone := "(555) 123-4567".data
      services := ["Emergency Care".data, "Urgent Care".data, "General Medicine".data]
      rating := 42 / 10
      emergency := true
      urgent_care := true
      coordinates := extract_coordinates_with_openai resolver (parseHospitalName content)
        (hospitalAddress location) location
      relevance_score := metaScore.getD 0 }

/-- The `mock_rag_results` list: (content with the location spliced in,
`metadata["relevance_score"]`). -/
def mock_rag_results (location : Str) : List (Str × Option ℚ) :=
  [ ("Regional Medical Center near ".data ++ location ++
      (" - Full-service hospital with emergency department, trauma center, and " ++
       "specialized care units. Located at downtown area with 24/7 availability.").data,
     some (95 / 100))
  , ("City General Hospital in ".data ++ location ++
      (" - Community hospital offering urgent care, family medicine, and surgical " ++
       "services. Known for excellent patient care and modern facilities.").data,
     some (88 / 100))
  , ("Emergency Care Center near ".data ++ location ++
      (" - Specialized emergency and urgent care facility with fast treatment " ++
       "times and expert medical staff.").data,
     some (82 / 100)) ]

/-- `extract_hospital_locations_from_rag(location, injury_type)`: parses each
mock entry in order, appending the record when parsing yields one. -/
def extract_hospital_locations_from_rag (resolver : Resolver) (location : Str) :
    List HospitalInfo :=
  (mock_rag_results location).filterMap fun r =>
    parse_hospital_from_rag_content resolver r.1 r.2 location

/-- The `HospitalRagRequest` model (`max_results: int = 5`, unvalidated). -/
structure HospitalRagRequest where
  location : Str
  injury_type : Str
  max_results : Int

/-- The JSON body returned by `/api/hospitals/rag-locations`. -/
structure HospitalRagResponse where
  success : Bool
  hospitals : List HospitalInfo
  location : Str
  injury_type : Str
  total_found : Nat

/-- Python list slicing `l[:k]`, including its negative-index behaviour. -/
def pySlice (k : Int) (l : List α) : List α :=
  if 0 ≤ k then l.take k.toNat else l.take ((l.length : Int) + k).toNat

/-- The `/api/hospitals/rag-locations` endpoint
(`hospitals[:request.max_results]`). -/
def get_hospitals_from_rag (resolver : Resolver) (req : HospitalRagRequest) :
    HospitalRagResponse :=
  { success := true
    hospitals := pySlice req.max_results (extract_hospital_locations_from_rag resolver req.location)
    location := req.location
    injury_type := req.injury_type
    total_found := (extract_hospital_locations_from_rag resolver req.location).length }

/-! ## The Next.js hospital-locations route (translated from the source)

`extractHospitalDataFromRAG` of the hospital-locations API route: keeps only
RAG records whose `lat` and `lng` are both present and JS-truthy. The two
early-return guards (`!ragResponse`, `!ragResponse.hospitals`) behave
identically, so they are collapsed into one `Option`. The random fallback id
`rag-...` is injected as `freshId`. -/

/-- A RAG hospital record as received over JSON: every field may be absent. -/
structure RagHospitalIn where
  id : Option Str
  name : Option Str
  address : Option Str
  lat : Option ℚ
  lng : Option ℚ
  phone : Option Str
  services : Option (List Str)
  rating : Option ℚ
  emergency : Option Bool
  urgentCare : Option Bool

/-- The route's `Hospital` interface. -/
structure Hospital where
  id : Str
  name : Str
  address : Str
  lat : ℚ
  lng : ℚ
  phone : Option Str
  services : List Str
  rating : ℚ
  emergency : Bool
  urgentCare : Bool

/-- JS truthiness of a possibly-absent number: present and non-zero. -/
def numTruthy : Option ℚ → Bool
  | some x => decide (x ≠ 0)
  | none => false

/-- JS `a || d` for a possibly-absent string (empty string is falsy). -/
def jsOrStr (o : Option Str) (dflt : Str) : Str :=
  match o with
  | some s => if s = [] then dflt else s
  | none => dflt

/-- JS `a || d` for a possibly-absent number (zero is falsy). -/
def jsOrNum (o : Option ℚ) (dflt : ℚ) : ℚ :=
  match o with
  | some x => if x = 0 then dflt else x
  | none => dflt

/-- JS `a || d` for a possibly-absent boolean. -/
def jsOrBool (o : Option Bool) (dflt : Bool) : Bool :=
  match o with
  | some b => b || dflt
  | none => dflt

/-- The guard `if (ragHospital.lat && ragHospital.lng)`. -/
def coordsTruthy (h : RagHospitalIn) : Bool := numTruthy h.lat && numTruthy h.lng

/-- The `Hospital` object built inside the loop (arrays, unlike numbers and
strings, are truthy in JS even when empty, so `services` uses plain
defaulting). -/
def convertRagHospital (freshId : Str) (h : RagHospitalIn) : Hospital :=
  { id := jsOrStr h.id freshId
    name := jsOrStr h.name unknownHospitalName
    address := jsOrStr h.address "Address not available".data
    lat := h.lat.getD 0
    lng := h.lng.getD 0
    phone := h.phone
    services := h.services.getD ["General Medicine".data]
    rating := jsOrNum h.rating 4
    emergency := jsOrBool h.emergency false
    urgentCare := jsOrBool h.urgentCare false }

/-- The `for` loop of `extractHospitalDataFromRAG`. -/
def extractRagLoop (freshId : Str) : List RagHospitalIn → List Hospital
  | [] => []
  | h :: t =>
    if coordsTruthy h then convertRagHospital freshId h :: extractRagLoop freshId t
    else extractRagLoop freshId t

/-- `extractHospitalDataFromRAG(ragResponse)`. -/
def extractHospitalDataFromRAG (freshId : Str)
    (ragHospitals : Option (List RagHospitalIn)) : List Hospital :=
  match ragHospitals with
  | none => []
  | some hs => extractRagLoop freshId hs

/-! ## Auxiliary definitions for the statements -/

/-- A resolver whose call always fails. -/
def failResolver : Resolver := fun _ _ _ => .apiError

/-- Case-insensitive test that `l` ends with `a`. -/
def endsWithCI (a l : Str) : Bool :=
  decide (a.length ≤ l.length) && matchCI a (l.drop (l.length - a.length))

/-- The end position of the longest leading substring of `content` ending in
one of the facility-type suffixes. This follows the specification's words
("the longest leading substring ending in a known facility-type suffix"),
for comparison with the source's first-match parse. -/
def longestSuffixEnd (content : Str) : Option Nat :=
  (List.range (content.length + 1)).reverse.find? fun n =>
    suffixAlternatives.any fun a => endsWithCI a (content.take n)

/-- The facility name the specification's words describe: the longest
leading substring ending in a facility-type suffix, stripped; the
placeholder when none exists. -/
def longestNameSpec (content : Str) : Str :=
  match longestSuffixEnd content with
  | some n => stripStr (content.take n)
  | none => unknownHospitalName

/-! ## Concrete inputs used in the statements below -/

/-- The end-to-end scenario query of the specification. -/
def emergencyServicesQuery : Str := "Find hospitals with emergency services".data

/-- A query containing the emergency keyword together with twenty distinct
words drawn from the sprained-ankle document body. -/
def emergencyStuffedQuery : Str :=
  ("emergency rest ice compression elevation apply cold pack for twenty " ++
   "minutes wrap the joint gently keep weight off and elevate above").data

/-- The no-overlap scenario query of the specification. -/
def nonsenseQuery : Str := "xyz123 unrelated nonsense".data

/-- A single token containing the emergency keyword but occurring in no
document body. -/
def tokenFreeEmergencyQuery : Str := "emergencyxyz999".data

/-- A whitespace-only query. -/
def wsQuery : Str := "   ".data

/-- A document whose body is the empty string. -/
def emptyBodyDoc : Document :=
  { id := 9, title := [], body := [], source := [], category := .general }

/-- A hospital-RAG request with the default `max_results`. -/
def fiveMaxRequest : HospitalRagRequest :=
  { location := "Los Angeles".data, injury_type := "general".data, max_results := 5 }

/-- A hospital-RAG request carrying a negative `max_results`. -/
def negMaxResultsRequest : HospitalRagRequest :=
  { location := "Los Angeles".data, injury_type := "general".data, max_results := -1 }

/-- A narrative content string on which the first suffix match ("Clinic")
is not the last one ("Hospital"). -/
def clinicHospitalContent : Str := "Sunrise Clinic Hospital - downtown".data

/-- A narrative content string with a newline before the first suffix
match (`re.search` captures only "Clinic" here). -/
def newlineClinicContent : Str := "Sunrise\nClinic Hospital".data

/-- A RAG hospital record with both coordinates present and non-zero. -/
def ragRecA : RagHospitalIn :=
  { id := some "h1".data, name := some "Mercy Hospital".data, address := none
    lat := some 34, lng := some (-118), phone := none, services := none
    rating := none, emergency := some true, urgentCare := none }

/-- A RAG hospital record lying on the equator (`lat = 0`). -/
def ragRecB : RagHospitalIn :=
  { id := none, name := none, address := none
    lat := some 0, lng := some (-118), phone := none, services := none
    rating := none, emergency := none, urgentCare := none }

/-- A RAG hospital record with a missing latitude. -/
def ragRecC : RagHospitalIn :=
  { id := none, name := some "Valley Clinic".data, address := none
    lat := none, lng := some 5, phone := none, services := none
    rating := none, emergency := none, urgentCare := none }

end HealthcareRag

namespace HealthcareRag

/-! ## Helper lemmas -/

lemma clamp01_nonneg (x : ℚ) : 0 ≤ clamp01 x :=
  le_min (by norm_num) (le_max_left 0 x)

lemma clamp01_le_one (x : ℚ) : clamp01 x ≤ 1 := min_le_left 1 _

lemma relevancy_nonneg (q : Str) (d : Document) : 0 ≤ relevancy q d := by
  unfold relevancy
  split
  · exact le_refl 0
  · split
    · exact clamp01_nonneg _
    · exact clamp01_nonneg _

lemma relevancy_le_one (q : Str) (d : Document) : relevancy q d ≤ 1 := by
  unfold relevancy
  split
  · norm_num
  · split
    · exact clamp01_le_one _
    · exact clamp01_le_one _

lemma similarity_nonneg (q : Str) (d : Document) : 0 ≤ similarity q d := by
  unfold similarity
  split
  · exact le_refl 0
  · exact clamp01_nonneg _

lemma similarity_le_one (q : Str) (d : Document) : similarity q d ≤ 1 := by
  unfold similarity
  split
  · norm_num
  · exact clamp01_le_one _

lemma mem_insertDesc {x y : ScoredDocument} {l : List ScoredDocument} :
    y ∈ insertDesc x l ↔ y = x ∨ y ∈ l := by
  induction l with
  | nil => simp [insertDesc]
  | cons z zs ih =>
    simp only [insertDesc]
    split
    · simp
    · simp only [List.mem_cons, ih]
      tauto

lemma length_insertDesc (x : ScoredDocument) (l : List ScoredDocument) :
    (insertDesc x l).length = l.length + 1 := by
  induction l with
  | nil => rfl
  | cons z zs ih =>
    simp only [insertDesc]
    split
    · simp
    · simp [ih]

lemma mem_sortDesc {y : ScoredDocument} {l : List ScoredDocument} :
    y ∈ sortDesc l ↔ y ∈ l := by
  induction l with
  | nil => simp [sortDesc]
  | cons z zs ih => simp [sortDesc, mem_insertDesc, ih]

lemma length_sortDesc (l : List ScoredDocument) : (sortDesc l).length = l.length := by
  induction l with
  | nil => rfl
  | cons z zs ih => simp [sortDesc, length_insertDesc, ih]

lemma insertDesc_eq_cons {x : ScoredDocument} {l : List ScoredDocument}
    (h : ∀ y ∈ l, y.relevancy ≤ x.relevancy) : insertDesc x l = x :: l := by
  cases l with
  | nil => rfl
  | cons z zs => simp [insertDesc, h z (List.mem_cons_self z zs)]

lemma sortDesc_cons_max {x : ScoredDocument} {xs : List ScoredDocument}
    (h : ∀ y ∈ xs, y.relevancy ≤ x.relevancy) :
    sortDesc (x :: xs) = x :: sortDesc xs := by
  show insertDesc x (sortDesc xs) = x :: sortDesc xs
  exact insertDesc_eq_cons fun y hy => h y (mem_sortDesc.mp hy)

lemma length_rank (q : Str) (docs : List Document) (k : Nat) :
    (rank q docs k).length = min k docs.length := by
  simp [rank, List.length_take, length_sortDesc]

lemma mem_rank {s : ScoredDocument} {q : Str} {docs : List Document} {k : Nat}
    (h : s ∈ rank q docs k) : ∃ d ∈ docs, s = mkScored q d := by
  have h1 : s ∈ sortDesc (docs.map (mkScored q)) := List.mem_of_mem_take h
  have h2 : s ∈ docs.map (mkScored q) := mem_sortDesc.mp h1
  obtain ⟨d, hd, rfl⟩ := List.mem_map.mp h2
  exact ⟨d, hd, rfl⟩

lemma relevancy_eq_zero {q : Str} {d : Document}
    (hInt : matchesIntent d.category q = false)
    (hTok : ∀ t ∈ tokenSet q, containsSub t (lowerStr d.body) = false) :
    relevancy q d = 0 := by
  unfold relevancy
  split
  · rfl
  · rw [hInt]
    simp only [Bool.false_eq_true, if_false]
    have hcount : (tokenSet q).countP (fun t => containsSub t (lowerStr d.body)) = 0 :=
      List.countP_eq_zero.mpr fun t ht => by simp [hTok t ht]
    simp [overlapRatio, hcount, clamp01]

lemma lowerChar_of_isWs {c : Char} (h : isWs c = true) : lowerChar c = c := by
  simp only [isWs, Bool.or_eq_true, decide_eq_true_eq] at h
  rcases h with ((rfl | rfl) | rfl) | rfl <;> decide

lemma isWordChar_of_isWs {c : Char} (h : isWs c = true) : isWordChar c = false := by
  simp only [isWs, Bool.or_eq_true, decide_eq_true_eq] at h
  rcases h with ((rfl | rfl) | rfl) | rfl <;> decide

lemma containsSub_head_mem {c : Char} {s hay : Str}
    (h : containsSub (c :: s) hay = true) : c ∈ hay := by
  induction hay with
  | nil => simp [containsSub, List.isEmpty] at h
  | cons d ds ih =>
    simp only [containsSub, Bool.or_eq_true] at h
    rcases h with h | h
    · have hcd : c = d := by
        simp only [List.isPrefixOf, Bool.and_eq_true, beq_iff_eq] at h
        exact h.1
      simp [hcd]
    · exact List.mem_cons_of_mem _ (ih h)

lemma intentKeywords_head_ok :
    ∀ cat : DocCategory, ∀ kw ∈ intentKeywords cat,
      kw ≠ [] ∧ isWs (kw.headD ' ') = false := by
  intro cat kw hkw
  cases cat <;> simp only [intentKeywords] at hkw <;> fin_cases hkw <;>
    exact ⟨by decide, by decide⟩

lemma matchesIntent_of_ws {cat : DocCategory} {q : Str}
    (hw : ∀ c ∈ q, isWs c = true) : matchesIntent cat q = false := by
  cases hAny : matchesIntent cat q with
  | false => rfl
  | true =>
    exfalso
    obtain ⟨kw, hkw, hsub⟩ := List.any_eq_true.mp hAny
    obtain ⟨hne, hhead⟩ := intentKeywords_head_ok cat kw hkw
    obtain ⟨c, s, rfl⟩ : ∃ c s, kw = c :: s := by
      cases kw with
      | nil => exact absurd rfl hne
      | cons c s => exact ⟨c, s, rfl⟩
    have hc : c ∈ lowerStr q := containsSub_head_mem hsub
    obtain ⟨c0, hc0, hlow⟩ := List.mem_map.mp hc
    have h0 := hw c0 hc0
    rw [lowerChar_of_isWs h0] at hlow
    subst hlow
    simp only [List.headD_cons] at hhead
    rw [h0] at hhead
    exact Bool.noConfusion hhead

lemma splitWords_eq_nil {l : Str} (h : ∀ c ∈ l, isWordChar c = false) :
    splitWords l = [] := by
  show splitWordsAux [] l = []
  induction l with
  | nil => rfl
  | cons c cs ih =>
    simp only [splitWordsAux, h c (List.mem_cons_self c cs), Bool.false_eq_true, if_false]
    have : splitWordsAux [] cs = [] := ih fun x hx => h x (List.mem_cons_of_mem _ hx)
    simp [flushWord, this]

lemma tokenSet_of_ws {q : Str} (hw : ∀ c ∈ q, isWs c = true) : tokenSet q = [] := by
  unfold tokenSet
  rw [splitWords_eq_nil]
  · rfl
  · intro x hx
    obtain ⟨c, hc, rfl⟩ := List.mem_map.mp hx
    rw [lowerChar_of_isWs (hw c hc)]
    exact isWordChar_of_isWs (hw c hc)

lemma relevancy_of_ws {q : Str} {d : Document} (hw : ∀ c ∈ q, isWs c = true) :
    relevancy q d = 0 :=
  relevancy_eq_zero (matchesIntent_of_ws hw) (by rw [tokenSet_of_ws hw]; simp)

lemma score_empty_body {q : Str} {d : Document} (h : d.body = []) :
    score q d = (0, 0) := by
  have ht : tokenSet d.body = [] := by rw [h]; rfl
  unfold score relevancy similarity
  rw [ht]
  simp

lemma extractRagLoop_eq_filter (freshId : Str) (l : List RagHospitalIn) :
    extractRagLoop freshId l = (l.filter coordsTruthy).map (convertRagHospital freshId) := by
  induction l with
  | nil => rfl
  | cons h t ih =>
    simp only [extractRagLoop, List.filter_cons]
    split
    · simp [ih]
    · simp [ih]

lemma pySlice_length_le {k : Int} (l : List HospitalInfo) (h : 0 ≤ k) :
    ((pySlice k l).length : Int) ≤ k := by
  unfold pySlice
  rw [if_pos h]
  calc ((l.take k.toNat).length : Int) ≤ (k.toNat : Int) := by
        exact_mod_cast List.length_take_le k.toNat l
    _ = k := Int.toNat_of_nonneg h

lemma findSuffixMatch_some {l : Str} {i : Nat} {a : Str}
    (h : findSuffixMatch l = some (i, a)) :
    a ∈ suffixAlternatives ∧ matchCI a (l.drop i) = true ∧
      ∀ j < i, ∀ b ∈ suffixAlternatives, matchCI b (l.drop j) = false := by
  induction l generalizing i a with
  | nil =>
    simp only [findSuffixMatch] at h
    cases hf : suffixAlternatives.find? (fun x => matchCI x []) with
    | some x =>
      rw [hf] at h
      obtain ⟨rfl, rfl⟩ : i = 0 ∧ a = x := by
        simpa [Prod.ext_iff] using h.symm
      refine ⟨List.mem_of_find?_eq_some hf, ?_, by omega⟩
      simpa using List.find?_some hf
    | none => rw [hf] at h; exact absurd h (by simp)
  | cons c cs ih =>
    simp only [findSuffixMatch] at h
    cases hf : suffixAlternatives.find? (fun x => matchCI x (c :: cs)) with
    | some x =>
      rw [hf] at h
      obtain ⟨rfl, rfl⟩ : i = 0 ∧ a = x := by
        simpa [Prod.ext_iff] using h.symm
      refine ⟨List.mem_of_find?_eq_some hf, ?_, by omega⟩
      simpa using List.find?_some hf
    | none =>
      rw [hf] at h
      cases hg : findSuffixMatch cs with
      | none => rw [hg] at h; exact absurd h (by simp)
      | some p =>
        rw [hg] at h
        obtain ⟨rfl, rfl⟩ : i = p.1 + 1 ∧ a = p.2 := by
          simpa [Prod.ext_iff] using h.symm
        obtain ⟨h1, h2, h3⟩ := ih (i := p.1) (a := p.2) (by rw [hg])
        refine ⟨h1, by simpa [List.drop_succ_cons] using h2, ?_⟩
        intro j hj b hb
        cases j with
        | zero =>
          simp only [List.drop_zero]
          have := List.find?_eq_none.mp hf b hb
          simpa using this
        | succ j0 =>
          simp only [List.drop_succ_cons]
          exact h3 j0 (by omega) b hb

lemma findSuffixMatch_none {l : Str} (h : findSuffixMatch l = none) :
    ∀ j, ∀ b ∈ suffixAlternatives, matchCI b (l.drop j) = false := by
  induction l with
  | nil =>
    intro j b hb
    simp only [findSuffixMatch] at h
    cases hf : suffixAlternatives.find? (fun x => matchCI x []) with
    | some x => rw [hf] at h; exact absurd h (by simp)
    | none =>
      have := List.find?_eq_none.mp hf b hb
      simpa [List.drop_nil] using this
  | cons c cs ih =>
    intro j b hb
    simp only [findSuffixMatch] at h
    cases hf : suffixAlternatives.find? (fun x => matchCI x (c :: cs)) with
    | some x => rw [hf] at h; exact absurd h (by simp)
    | none =>
      rw [hf] at h
      cases hg : findSuffixMatch cs with
      | some p => rw [hg] at h; exact absurd h (by simp)
      | none =>
        cases j with
        | zero =>
          have := List.find?_eq_none.mp hf b hb
          simpa using this
        | succ j0 =>
          simp only [List.drop_succ_cons]
          exact ih hg j0 b hb

/-! ## The claims -/

/-- C1 (amended): for every query matching the emergency-intent keyword, if
no other corpus document scores above 0.95, the top-ranked entry of the
retrieval result is the emergency-guidelines document (id 1) and its
relevancy is exactly 0.95. Unrestricted, the claim fails: a query stuffed
with enough distinct words of another document's body reaches a
keyword-overlap ratio above 0.95 and outranks the emergency document. -/
theorem claim_C1 (q : Str)
    (h1 : matchesIntent .emergency q = true)
    (h2 : ∀ d ∈ ragCorpusRest, relevancy q d ≤ 95 / 100) :
    ((retrieveContext ragCorpus q).documents.head?).map (fun s => (s.doc.id, s.relevancy)) =
      some (1, 95 / 100) := by
  have h0 : ¬ (tokenSet emergencyGuidelinesDoc.body = []) :=
    of_decide_eq_true (by with_unfolding_all rfl)
  have hcat : emergencyGuidelinesDoc.category = DocCategory.emergency := rfl
  have hrel : relevancy q emergencyGuidelinesDoc = 95 / 100 := by
    unfold relevancy
    rw [if_neg h0, hcat, if_pos h1]
    norm_num [clamp01, calibratedScore, min_def, max_def]
  have hmax : ∀ y ∈ ragCorpusRest.map (mkScored q),
      y.relevancy ≤ (mkScored q emergencyGuidelinesDoc).relevancy := by
    intro y hy
    obtain ⟨d, hd, rfl⟩ := List.mem_map.mp hy
    show relevancy q d ≤ (mkScored q emergencyGuidelinesDoc).relevancy
    rw [show (mkScored q emergencyGuidelinesDoc).relevancy =
      relevancy q emergencyGuidelinesDoc from rfl, hrel]
    exact h2 d hd
  have hsort : sortDesc (ragCorpus.map (mkScored q)) =
      mkScored q emergencyGuidelinesDoc :: sortDesc (ragCorpusRest.map (mkScored q)) := by
    show sortDesc (mkScored q emergencyGuidelinesDoc :: ragCorpusRest.map (mkScored q)) = _
    exact sortDesc_cons_max hmax
  show ((((sortDesc (ragCorpus.map (mkScored q))).take 3).head?).map
      (fun s => (s.doc.id, s.relevancy))) = some (1, 95 / 100)
  rw [hsort]
  show some ((mkScored q emergencyGuidelinesDoc).doc.id,
    (mkScored q emergencyGuidelinesDoc).relevancy) = some (1, 95 / 100)
  rw [show (mkScored q emergencyGuidelinesDoc).relevancy =
    relevancy q emergencyGuidelinesDoc from rfl, hrel]
  rfl

/-- C1 witness: the specification's end-to-end query satisfies both
hypotheses and yields the emergency document on top with relevancy 0.95. -/
theorem claim_C1_witness :
    matchesIntent .emergency emergencyServicesQuery = true ∧
    (∀ d ∈ ragCorpusRest, relevancy emergencyServicesQuery d ≤ 95 / 100) ∧
    ((retrieveContext ragCorpus emergencyServicesQuery).documents.head?).map
      (fun s => (s.doc.id, s.relevancy)) = some (1, 95 / 100) :=
  ⟨of_decide_eq_true (by with_unfolding_all rfl),
   of_decide_eq_true (by with_unfolding_all rfl),
   claim_C1 emergencyServicesQuery (of_decide_eq_true (by with_unfolding_all rfl))
     (of_decide_eq_true (by with_unfolding_all rfl))⟩

/-- C1 counterexample: a query matching the emergency-intent keyword whose
top-ranked entry is the sprained-ankle document (id 5) with relevancy 20/21,
not the emergency-guidelines document with 0.95. -/
theorem claim_C1_counterexample :
    matchesIntent .emergency emergencyStuffedQuery = true ∧
    ((retrieveContext ragCorpus emergencyStuffedQuery).documents.head?).map
      (fun s => (s.doc.id, s.relevancy)) = some (5, 20 / 21) ∧
    ¬ (((retrieveContext ragCorpus emergencyStuffedQuery).documents.head?).map
      (fun s => (s.doc.id, s.relevancy)) = some (1, 95 / 100)) :=
  of_decide_eq_true (by with_unfolding_all rfl)

/-- C2 (amended): `rank` returns at most `k` documents, each with relevancy
and similarity in the unit interval; and the hospital RAG endpoint returns at
most `max_results` records whenever `max_results` is non-negative. For a
negative `max_results` Python slicing instead drops records from the end of
the list, so the unrestricted claim fails. -/
theorem claim_C2 (q : Str) (docs : List Document) (k : Nat) (resolver : Resolver)
    (req : HospitalRagRequest) (h : 0 ≤ req.max_results) :
    (rank q docs k).length ≤ k ∧
    (∀ s ∈ rank q docs k,
      0 ≤ s.relevancy ∧ s.relevancy ≤ 1 ∧ 0 ≤ s.similarity ∧ s.similarity ≤ 1) ∧
    ((get_hospitals_from_rag resolver req).hospitals.length : Int) ≤ req.max_results := by
  refine ⟨List.length_take_le k _, ?_, ?_⟩
  · intro s hs
    obtain ⟨d, _, rfl⟩ := mem_rank hs
    exact ⟨relevancy_nonneg q d, relevancy_le_one q d,
      similarity_nonneg q d, similarity_le_one q d⟩
  · exact pySlice_length_le _ h

/-- C2 witness: the default request (`max_results = 5`) satisfies the
hypothesis and all three bounds. -/
theorem claim_C2_witness :
    (0 : Int) ≤ fiveMaxRequest.max_results ∧
    ((rank emergencyServicesQuery ragCorpus 3).length ≤ 3 ∧
     (∀ s ∈ rank emergencyServicesQuery ragCorpus 3,
        0 ≤ s.relevancy ∧ s.relevancy ≤ 1 ∧ 0 ≤ s.similarity ∧ s.similarity ≤ 1) ∧
     ((get_hospitals_from_rag failResolver fiveMaxRequest).hospitals.length : Int) ≤
        fiveMaxRequest.max_results) :=
  ⟨by decide, claim_C2 emergencyServicesQuery ragCorpus 3 failResolver fiveMaxRequest (by decide)⟩

/-- C2 counterexample: with `max_results = -1` the endpoint returns 2 of the
3 extracted records, and 2 is not at most −1, so the endpoint can return
more than `max_results` records. -/
theorem claim_C2_counterexample :
    (get_hospitals_from_rag failResolver negMaxResultsRequest).hospitals.length = 2 ∧
    ¬ (((get_hospitals_from_rag failResolver negMaxResultsRequest).hospitals.length : Int) ≤
        negMaxResultsRequest.max_results) :=
  of_decide_eq_true (by with_unfolding_all rfl)

/-- C3 (amended): for every query that matches no intent keyword and whose
tokens occur as substrings of no document body, the retrieval result holds
exactly 3 documents (the corpus has 5), each with relevancy 0. Without the
no-intent restriction the claim fails: a single token containing an intent
keyword overlaps no document body yet scores the calibrated 0.95. -/
theorem claim_C3 (q : Str)
    (h1 : matchesIntent .emergency q = false ∧ matchesIntent .facility q = false ∧
      matchesIntent .allergy q = false ∧ matchesIntent .general q = false)
    (h2 : ∀ t ∈ tokenSet q, ∀ d ∈ ragCorpus, containsSub t (lowerStr d.body) = false) :
    (retrieveContext ragCorpus q).documents.length = 3 ∧
    ∀ s ∈ (retrieveContext ragCorpus q).documents, s.relevancy = 0 := by
  have hz : ∀ d ∈ ragCorpus, relevancy q d = 0 := by
    intro d hd
    have hTok : ∀ t ∈ tokenSet q, containsSub t (lowerStr d.body) = false :=
      fun t ht => h2 t ht d hd
    have hd2 := hd
    simp only [ragCorpus, ragCorpusRest, List.mem_cons, List.not_mem_nil, or_false] at hd2
    rcases hd2 with rfl | rfl | rfl | rfl | rfl
    · exact relevancy_eq_zero h1.1 hTok
    · exact relevancy_eq_zero h1.2.1 hTok
    · exact relevancy_eq_zero h1.2.2.1 hTok
    · exact relevancy_eq_zero h1.2.2.2 hTok
    · exact relevancy_eq_zero rfl hTok
  constructor
  · show (rank q ragCorpus 3).length = 3
    rw [length_rank]
    rfl
  · intro s hs
    obtain ⟨d, hd, rfl⟩ := mem_rank hs
    exact hz d hd

/-- C3 witness: the specification's nonsense query satisfies both hypotheses
and yields 3 documents with relevancy 0. -/
theorem claim_C3_witness :
    ((matchesIntent .emergency nonsenseQuery = false ∧
      matchesIntent .facility nonsenseQuery = false ∧
      matchesIntent .allergy nonsenseQuery = false ∧
      matchesIntent .general nonsenseQuery = false) ∧
     (∀ t ∈ tokenSet nonsenseQuery, ∀ d ∈ ragCorpus,
        containsSub t (lowerStr d.body) = false)) ∧
    ((retrieveContext ragCorpus nonsenseQuery).documents.length = 3 ∧
     ∀ s ∈ (retrieveContext ragCorpus nonsenseQuery).documents, s.relevancy = 0) :=
  ⟨⟨of_decide_eq_true (by with_unfolding_all rfl),
    of_decide_eq_true (by with_unfolding_all rfl)⟩,
   claim_C3 nonsenseQuery (of_decide_eq_true (by with_unfolding_all rfl))
     (of_decide_eq_true (by with_unfolding_all rfl))⟩

/-- C3 counterexample: the token `emergencyxyz999` overlaps no document body,
yet not every returned relevancy is 0 (the emergency document scores its
calibrated 0.95 because the token contains the intent keyword). -/
theorem claim_C3_counterexample :
    (∀ t ∈ tokenSet tokenFreeEmergencyQuery, ∀ d ∈ ragCorpus,
        containsSub t (lowerStr d.body) = false) ∧
    ¬ (∀ s ∈ (retrieveContext ragCorpus tokenFreeEmergencyQuery).documents,
        s.relevancy = 0) :=
  of_decide_eq_true (by with_unfolding_all rfl)

/-- C4 (amended): the adapter parses the facility name from the first regex
match, not the longest: it takes the substring reaching from the start of
the line containing the smallest position at which one of the suffix
alternatives matches (alternatives in priority order) up to the end of that
match, stripped — the lazy `.*?` cannot cross a newline, so the capture
starts at that line start, and it stops at the first suffix, not the last;
when no alternative matches anywhere the name is the fixed placeholder; the
parse is total. -/
theorem claim_C4 (content : Str) :
    (∀ i a, findSuffixMatch content = some (i, a) →
        a ∈ suffixAlternatives ∧ matchCI a (content.drop i) = true ∧
        (∀ j < i, ∀ b ∈ suffixAlternatives, matchCI b (content.drop j) = false) ∧
        parseHospitalName content =
          stripStr ((content.take (i + a.length)).drop (lineStart content i))) ∧
    (findSuffixMatch content = none →
        (∀ j, ∀ b ∈ suffixAlternatives, matchCI b (content.drop j) = false) ∧
        parseHospitalName content = unknownHospitalName) := by
  constructor
  · intro i a h
    obtain ⟨ha1, ha2, ha3⟩ := findSuffixMatch_some h
    refine ⟨ha1, ha2, ha3, ?_⟩
    unfold parseHospitalName
    rw [h]
  · intro h
    refine ⟨findSuffixMatch_none h, ?_⟩
    unfold parseHospitalName
    rw [h]

/-- C4 witness: on content with a newline before the first match, the match
is "Clinic" at position 8, the capture starts at line start 8 (not 0), and
the parsed name is "Clinic" — the value `re.search` produces. -/
theorem claim_C4_witness :
    parseHospitalName newlineClinicContent = "Clinic".data ∧
    lineStart newlineClinicContent 8 = 8 ∧
    ("Clinic".data ∈ suffixAlternatives ∧
     matchCI "Clinic".data (newlineClinicContent.drop 8) = true ∧
     (∀ j < 8, ∀ b ∈ suffixAlternatives, matchCI b (newlineClinicContent.drop j) = false) ∧
     parseHospitalName newlineClinicContent =
       stripStr ((newlineClinicContent.take (8 + "Clinic".data.length)).drop
         (lineStart newlineClinicContent 8))) :=
  ⟨of_decide_eq_true (by with_unfolding_all rfl),
   of_decide_eq_true (by with_unfolding_all rfl),
   (claim_C4 newlineClinicContent).1 8 "Clinic".data
     (of_decide_eq_true (by with_unfolding_all rfl))⟩

/-- C4 counterexample: on "Sunrise Clinic Hospital - downtown" the code
parses "Sunrise Clinic" while the longest leading substring ending in a
suffix is "Sunrise Clinic Hospital" — the two disagree. -/
theorem claim_C4_counterexample :
    parseHospitalName clinicHospitalContent = "Sunrise Clinic".data ∧
    longestNameSpec clinicHospitalContent = "Sunrise Clinic Hospital".data ∧
    parseHospitalName clinicHospitalContent ≠ longestNameSpec clinicHospitalContent :=
  of_decide_eq_true (by with_unfolding_all rfl)

/-- C5: when coordinate resolution for an entry fails, times out, or returns
text that does not parse as JSON (the resolver produces no parsed value),
the emitted record exists and its `coordinates` field is `none` — never a
zero-value pair — and the batch still processes all three mock entries. -/
theorem claim_C5 (resolver : Resolver) (content location : Str) (metaScore : Option ℚ)
    (h : ∀ j, resolver (parseHospitalName content) (hospitalAddress location) location ≠
      ResolverOutcome.parsed j) :
    (∃ rec, parse_hospital_from_rag_content resolver content metaScore location = some rec ∧
        rec.coordinates = none) ∧
    (extract_hospital_locations_from_rag resolver location).length = 3 := by
  constructor
  · refine ⟨_, rfl, ?_⟩
    show extract_coordinates_with_openai resolver (parseHospitalName content)
      (hospitalAddress location) location = none
    cases ho : resolver (parseHospitalName content) (hospitalAddress location) location with
    | parsed j => exact absurd ho (h j)
    | apiError => simp [extract_coordinates_with_openai, ho]
    | timeout => simp [extract_coordinates_with_openai, ho]
    | parseError => simp [extract_coordinates_with_openai, ho]
  · rfl

/-- C5 witness: with an always-failing resolver the record for the sample
content has absent coordinates and the batch length is 3. -/
theorem claim_C5_witness :
    (∀ j, failResolver (parseHospitalName clinicHospitalContent)
        (hospitalAddress "Los Angeles".data) "Los Angeles".data ≠
        ResolverOutcome.parsed j) ∧
    ((∃ rec, parse_hospital_from_rag_content failResolver clinicHospitalContent
        (some (95 / 100)) "Los Angeles".data = some rec ∧ rec.coordinates = none) ∧
     (extract_hospital_locations_from_rag failResolver "Los Angeles".data).length = 3) := by
  have hres : ∀ j, failResolver (parseHospitalName clinicHospitalContent)
      (hospitalAddress "Los Angeles".data) "Los Angeles".data ≠
      ResolverOutcome.parsed j := by
    intro j h
    simp [failResolver] at h
  exact ⟨hres,
    claim_C5 failResolver clinicHospitalContent "Los Angeles".data (some (95 / 100)) hres⟩

/-- C6: when the Document Store cannot be read, or reads as the empty
corpus, the Retrieval Service returns a result with `documentsUsed = 0` and
an empty `documents` sequence instead of raising (the embedding is total, so
no error propagates from the scoring path). -/
theorem claim_C6 (q : Str) (store : Except Str (List Document))
    (h : (∃ e, store = Except.error e) ∨ store = Except.ok []) :
    (retrieveContextSafe store q).documentsUsed = 0 ∧
    (retrieveContextSafe store q).documents = [] := by
  rcases h with ⟨e, rfl⟩ | rfl
  · exact ⟨rfl, rfl⟩
  · exact ⟨rfl, rfl⟩

/-- C6 witness: an unreachable store yields the empty result. -/
theorem claim_C6_witness :
    (∃ e, (Except.error "corpus unavailable".data : Except Str (List Document)) =
      Except.error e) ∧
    (retrieveContextSafe (Except.error "corpus unavailable".data) "hospital".data).documentsUsed
      = 0 ∧
    (retrieveContextSafe (Except.error "corpus unavailable".data) "hospital".data).documents
      = [] := by
  refine ⟨⟨_, rfl⟩, ?_, ?_⟩
  · exact (claim_C6 "hospital".data _ (Or.inl ⟨_, rfl⟩)).1
  · exact (claim_C6 "hospital".data _ (Or.inl ⟨_, rfl⟩)).2

/-- C7: scoring and retrieval are deterministic — the scorer and the
retrieval service are pure functions of the query, the document and the
corpus/store, so two invocations on the same inputs give identical scores,
identical document order, and identical results. -/
theorem claim_C7 (q : Str) (d : Document) (corpus : List Document)
    (store : Except Str (List Document)) :
    score q d = score q d ∧ retrieveContext corpus q = retrieveContext corpus q ∧
    retrieveContextSafe store q = retrieveContextSafe store q :=
  ⟨rfl, rfl, rfl⟩

/-- C8: a whitespace-only (or empty) query gets relevancy 0 on every
document; a document with empty body scores (0, 0) under every query; and
the scorer's two outputs always lie in the unit interval. The embedded
scorer is a total function, so no exception is possible. -/
theorem claim_C8 (qw q : Str) (d dEmpty : Document)
    (hw : ∀ c ∈ qw, isWs c = true) (hb : dEmpty.body = []) :
    (score qw d).1 = 0 ∧ score q dEmpty = (0, 0) ∧
    (0 ≤ (score q d).1 ∧ (score q d).1 ≤ 1 ∧ 0 ≤ (score q d).2 ∧ (score q d).2 ≤ 1) :=
  ⟨relevancy_of_ws hw, score_empty_body hb,
   relevancy_nonneg q d, relevancy_le_one q d, similarity_nonneg q d, similarity_le_one q d⟩

/-- C8 witness: the three-space query and an empty-body document. -/
theorem claim_C8_witness :
    (∀ c ∈ wsQuery, isWs c = true) ∧ emptyBodyDoc.body = [] ∧
    ((score wsQuery emergencyGuidelinesDoc).1 = 0 ∧
     score "sprained ankle".data emptyBodyDoc = (0, 0) ∧
     (0 ≤ (score "sprained ankle".data emergencyGuidelinesDoc).1 ∧
      (score "sprained ankle".data emergencyGuidelinesDoc).1 ≤ 1 ∧
      0 ≤ (score "sprained ankle".data emergencyGuidelinesDoc).2 ∧
      (score "sprained ankle".data emergencyGuidelinesDoc).2 ≤ 1)) :=
  ⟨by decide, rfl,
   claim_C8 wsQuery "sprained ankle".data emergencyGuidelinesDoc emptyBodyDoc
     (by decide) rfl⟩

/-- C9: the healthcare guardrail rejects exactly when the lower-cased query
contains one of the fifteen non-healthcare indicator phrases, or contains
none of the healthcare keywords and has more than three whitespace-separated
words; every accepted query is returned unchanged. -/
theorem claim_C9 (q : Str) :
    ((validate_healthcare_query q = Except.ok q) ∨
      (∃ e, validate_healthcare_query q = Except.error e)) ∧
    ((∃ e, validate_healthcare_query q = Except.error e) ↔
      (non_healthcare_indicators.any (fun ind => containsSub ind (lowerStr q)) = true ∨
        (healthcare_keywords.any (fun kw => containsSub kw (lowerStr q)) = false ∧
          3 < wordCount q))) := by
  unfold validate_healthcare_query
  by_cases hA : non_healthcare_indicators.any (fun ind => containsSub ind (lowerStr q)) = true
  · rw [if_pos hA]
    exact ⟨Or.inr ⟨_, rfl⟩, ⟨fun _ => Or.inl hA, fun _ => ⟨_, rfl⟩⟩⟩
  · rw [if_neg hA]
    by_cases hB : (!(healthcare_keywords.any fun kw => containsSub kw (lowerStr q)) &&
        decide (3 < wordCount q)) = true
    · rw [if_pos hB]
      obtain ⟨hB1, hB2⟩ := Bool.and_eq_true_iff.mp hB
      have hB1 : healthcare_keywords.any (fun kw => containsSub kw (lowerStr q)) = false := by
        simpa using hB1
      exact ⟨Or.inr ⟨_, rfl⟩,
        ⟨fun _ => Or.inr ⟨hB1, of_decide_eq_true hB2⟩, fun _ => ⟨_, rfl⟩⟩⟩
    · rw [if_neg hB]
      refine ⟨Or.inl rfl, ⟨?_, ?_⟩⟩
      · rintro ⟨e, he⟩
        exact Except.noConfusion he
      · rintro (h | ⟨hX, hP⟩)
        · exact absurd h hA
        · exact absurd (by rw [hX]; simp [hP]) hB

/-- C9 witness: a four-word query with no healthcare keyword is rejected. -/
theorem claim_C9_witness :
    ∃ e, validate_healthcare_query "tell me a good story now".data = Except.error e :=
  (claim_C9 "tell me a good story now".data).2.mpr
    (Or.inr ⟨of_decide_eq_true (by with_unfolding_all rfl),
      of_decide_eq_true (by with_unfolding_all rfl)⟩)

/-- C10: `extractHospitalDataFromRAG` returns exactly the input records
whose `lat` and `lng` are both present and truthy, in input order, mapped by
the field-copying conversion; `lat`/`lng` are copied through unchanged; and
no returned record has a zero latitude or longitude (equator / prime
meridian records are filtered out along with missing and null ones). -/
theorem claim_C10 (freshId : Str) (hs : List RagHospitalIn) :
    extractHospitalDataFromRAG freshId (some hs) =
      (hs.filter coordsTruthy).map (convertRagHospital freshId) ∧
    (∀ h, coordsTruthy h = true →
        h.lat = some ((convertRagHospital freshId h).lat) ∧
        h.lng = some ((convertRagHospital freshId h).lng)) ∧
    (∀ r ∈ extractHospitalDataFromRAG freshId (some hs), r.lat ≠ 0 ∧ r.lng ≠ 0) := by
  refine ⟨extractRagLoop_eq_filter freshId hs, ?_, ?_⟩
  · intro h hc
    obtain ⟨hlat, hlng⟩ := Bool.and_eq_true_iff.mp hc
    constructor
    · cases hl : h.lat with
      | none => rw [hl] at hlat; simp [numTruthy] at hlat
      | some x => simp [convertRagHospital, hl]
    · cases hl : h.lng with
      | none => rw [hl] at hlng; simp [numTruthy] at hlng
      | some x => simp [convertRagHospital, hl]
  · intro r hr
    rw [show extractHospitalDataFromRAG freshId (some hs) = extractRagLoop freshId hs
      from rfl, extractRagLoop_eq_filter] at hr
    obtain ⟨h0, h0mem, rfl⟩ := List.mem_map.mp hr
    obtain ⟨_, htr⟩ := List.mem_filter.mp h0mem
    obtain ⟨hlat, hlng⟩ := Bool.and_eq_true_iff.mp htr
    constructor
    · cases hl : h0.lat with
      | none => rw [hl] at hlat; simp [numTruthy] at hlat
      | some x =>
        rw [hl] at hlat
        have hx : x ≠ 0 := by simpa [numTruthy] using hlat
        show (convertRagHospital freshId h0).lat ≠ 0
        simpa [convertRagHospital, hl] using hx
    · cases hl : h0.lng with
      | none => rw [hl] at hlng; simp [numTruthy] at hlng
      | some x =>
        rw [hl] at hlng
        have hx : x ≠ 0 := by simpa [numTruthy] using hlng
        show (convertRagHospital freshId h0).lng ≠ 0
        simpa [convertRagHospital, hl] using hx

/-- C10 witness: of three records — valid coordinates, equator latitude,
missing latitude — only the first survives, with its coordinates copied. -/
theorem claim_C10_witness :
    coordsTruthy ragRecA = true ∧
    ragRecA.lat = some ((convertRagHospital "rag-1".data ragRecA).lat) ∧
    ragRecA.lng = some ((convertRagHospital "rag-1".data ragRecA).lng) ∧
    extractHospitalDataFromRAG "rag-1".data (some [ragRecA, ragRecB, ragRecC]) =
      ([ragRecA, ragRecB, ragRecC].filter coordsTruthy).map
        (convertRagHospital "rag-1".data) ∧
    (∀ r ∈ extractHospitalDataFromRAG "rag-1".data (some [ragRecA, ragRecB, ragRecC]),
        r.lat ≠ 0 ∧ r.lng ≠ 0) := by
  have hc : coordsTruthy ragRecA = true := of_decide_eq_true (by with_unfolding_all rfl)
  have h := claim_C10 "rag-1".data [ragRecA, ragRecB, ragRecC]
  exact ⟨hc, (h.2.1 ragRecA hc).1, (h.2.1 ragRecA hc).2, h.1, h.2.2⟩

end HealthcareRag
